import Mathlib

/-!
Verification of the AI-Pulse usage-synchronization core.

Shallow embedding of:
  - the data model (`src/src/lib/types.ts`),
  - the per-provider usage store (contract of §4.1 of the spec; the store
    module itself is not among the reviewed sources, only its callers),
  - the refresh orchestrator (`src/src/hooks/useUsage.ts`, `refresh` and the
    mount / usage-cleared effects),
  - the error classifier and banner dismissal (`src/src/components/UsageCard.tsx`,
    `detectBannerType` and `SessionBanner`),
  - the update download controller (`src/src/components/About.tsx`,
    `downloadAndInstall`).

Asynchronous JavaScript is modelled by cutting each `async` function at its
`await` points into atomic segments (JavaScript runs the code between two
awaits atomically on a single thread); a concrete interleaving of two
invocations is the composition of their segments in schedule order.  Backend
results (`invoke` promises) are supplied by an oracle (`Gateway`); promise
rejection is `Except.error` carrying the message string that the `catch`
blocks extract.
-/

/-- Provider identifiers, from `src/src/lib/types.ts`:
`export type ProviderId = "claude" | "codex"`. -/
inductive ProviderId where
  | claude
  | codex
deriving DecidableEq, Repr

/-- One quota dimension, from `src/src/lib/types.ts` (`UsageLimit`).
The TypeScript `number` field `utilization` is carried opaquely as `Int`:
no code under verification computes with it. -/
structure UsageLimit where
  id : String
  label : String
  utilization : Int
  resetsAt : String
  category : Option String
deriving DecidableEq, Repr

/-- One fetch result, from `src/src/lib/types.ts` (`UsageData`).
The opaque `raw?: unknown` field is omitted: nothing under verification
reads it. -/
structure UsageData where
  provider : ProviderId
  timestamp : String
  limits : List UsageLimit
deriving DecidableEq, Repr

/-- Modelled from the spec: per-provider store entry (§3 `UsageStoreEntry`);
the store module `lib/store.ts` is not among the reviewed sources, only its
callers.  `lastRefresh` timestamps are opaque `Nat` instants. -/
structure StoreEntry where
  usage : Option UsageData
  loading : Bool
  error : Option String
  lastRefresh : Option Nat
deriving DecidableEq, Repr

/-- Modelled from the spec: the process-wide usage store (§4.1), a total
per-provider map, held as one entry per member of the closed provider
enumeration. -/
structure Store where
  claude : StoreEntry
  codex : StoreEntry
deriving DecidableEq, Repr

/-- Read one provider's entry (§4.1 `get`). -/
def Store.get (s : Store) : ProviderId → StoreEntry
  | .claude => s.claude
  | .codex => s.codex

/-- Replace one provider's entry; the other provider's entry is untouched
(§4.1: "no cross-provider effects"). -/
def Store.set (s : Store) (p : ProviderId) (e : StoreEntry) : Store :=
  match p with
  | .claude => { s with claude := e }
  | .codex => { s with codex := e }

/-- Modelled from the spec: §4.1 `setUsage(provider, data|null)`. -/
def setUsage (s : Store) (p : ProviderId) (d : Option UsageData) : Store :=
  s.set p { s.get p with usage := d }

/-- Modelled from the spec: §4.1 `setLoading(provider, bool)`. -/
def setLoading (s : Store) (p : ProviderId) (b : Bool) : Store :=
  s.set p { s.get p with loading := b }

/-- Modelled from the spec: §4.1 `setError(provider, string|null)`. -/
def setError (s : Store) (p : ProviderId) (e : Option String) : Store :=
  s.set p { s.get p with error := e }

/-- Modelled from the spec: §4.1 `setLastRefresh(provider, timestamp)`. -/
def setLastRefresh (s : Store) (p : ProviderId) (t : Nat) : Store :=
  s.set p { s.get p with lastRefresh := some t }

/-- Oracle for one invocation's backend responses
(`hasCredentials` / `fetchUsage` from `src/src/lib/tauri.ts`): each call
either fulfills with a value or rejects with a message string (the message
the `catch` block in `useUsage.ts` extracts from the thrown value).
`now` is the instant `new Date()` produces on the success path. -/
structure Gateway where
  hasCredentials : ProviderId → Except String Bool
  fetchUsage : ProviderId → Except String UsageData
  now : Nat

/-- A network call issued to the backend gateway, for counting duplicate
in-flight requests. -/
inductive GatewayCall where
  | hasCredentialsCall (p : ProviderId)
  | fetchUsageCall (p : ProviderId)
deriving DecidableEq, Repr

/-- The exact error string stored by the credential-absent fast-fail branch,
`src/src/hooks/useUsage.ts` line 19. -/
def noCredentialsError : String :=
  "No credentials configured. Please set up your credentials in Settings."

/-- `refresh`, segment before the first `await`
(`src/src/hooks/useUsage.ts` lines 12-13, then the `hasCredentials` call at
line 17 is issued):
`setLoading(provider, true); setError(provider, null);`. -/
def refreshStart (p : ProviderId) (s : Store) : Store :=
  setError (setLoading s p true) p none

/-- `refresh`, segment resuming when the `hasCredentials` promise settles
(`src/src/hooks/useUsage.ts` lines 17-22, with the `catch`/`finally` of
lines 27-32 for a rejected credential check).  Returns the store after this
segment together with `true` exactly when the segment issues the
`fetchUsage` network call (line 24) and suspends again.
The credential-absent branch runs `setLoading(provider,false)` twice: once
explicitly at line 20 and once in `finally` at line 31. -/
def refreshOnCreds (p : ProviderId) (res : Except String Bool) (s : Store) :
    Store × Bool :=
  match res with
  | .error msg => (setLoading (setError s p (some msg)) p false, false)
  | .ok false =>
      (setLoading (setLoading (setError s p (some noCredentialsError)) p false) p false,
       false)
  | .ok true => (s, true)

/-- `refresh`, segment resuming when the `fetchUsage` promise settles
(`src/src/hooks/useUsage.ts` lines 24-32): on fulfillment
`setUsage; setLastRefresh(now)`, on rejection `setError(message)`, and in
both cases the `finally` of line 31 runs `setLoading(provider,false)`. -/
def refreshOnFetch (p : ProviderId) (res : Except String UsageData) (now : Nat)
    (s : Store) : Store :=
  match res with
  | .ok data => setLoading (setLastRefresh (setUsage s p (some data)) p now) p false
  | .error msg => setLoading (setError s p (some msg)) p false

/-- One complete, un-interleaved run of `refresh(provider)`
(`src/src/hooks/useUsage.ts` lines 11-33): the three segments composed in
program order, paired with the list of network calls issued. -/
def refresh (g : Gateway) (p : ProviderId) (s : Store) :
    Store × List GatewayCall :=
  let s0 := refreshStart p s
  let credsRes := g.hasCredentials p
  let (s1, fetching) := refreshOnCreds p credsRes s0
  if fetching then
    (refreshOnFetch p (g.fetchUsage p) g.now s1,
     [.hasCredentialsCall p, .fetchUsageCall p])
  else
    (s1, [.hasCredentialsCall p])

/-- Two `refresh(p)` invocations issued back-to-back, run under the schedule
in which both invocations pass their credential check before either fetch
resolves, the first invocation's fetch settling first.  Each step is one
atomic segment of `refresh`; attempt A's backend responses come from `gA`,
attempt B's from `gB`.  This schedule is reachable in the JavaScript event
loop: both synchronous calls reach their first `await` before any
continuation runs, and the four pending promises then settle in the order
A-credentials, B-credentials, A-fetch, B-fetch. -/
def twoRefreshBackToBack (gA gB : Gateway) (p : ProviderId) (s : Store) :
    Store × List GatewayCall :=
  let sA0 := refreshStart p s
  let sB0 := refreshStart p sA0
  let (sA1, fA) := refreshOnCreds p (gA.hasCredentials p) sB0
  let (sB1, fB) := refreshOnCreds p (gB.hasCredentials p) sA1
  let sA2 := if fA then refreshOnFetch p (gA.fetchUsage p) gA.now sB1 else sB1
  let sB2 := if fB then refreshOnFetch p (gB.fetchUsage p) gB.now sA2 else sA2
  (sB2,
   [.hasCredentialsCall p, .hasCredentialsCall p]
     ++ (if fA then [GatewayCall.fetchUsageCall p] else [])
     ++ (if fB then [GatewayCall.fetchUsageCall p] else []))

/-- Per-instance state of the `useUsage` hook: the `hasFetched` ref
(`src/src/hooks/useUsage.ts` line 9, `useRef(false)`).  React allocates a
fresh ref, initialized to `false`, for every newly mounted component
instance; the ref persists across re-renders and effect re-executions of
that same instance and is discarded on unmount. -/
structure HookInst where
  hasFetched : Bool
deriving DecidableEq, Repr

/-- A freshly mounted instance of the hook: `useRef(false)`. -/
def freshHookInst : HookInst := { hasFetched := false }

/-- One execution of the initial-fetch effect body
(`src/src/hooks/useUsage.ts` lines 47-52): if the latch is unset, set it and
invoke `refresh`.  Returns the instance after the run and whether `refresh`
was triggered.  React runs this body on mount and again whenever the
effect's dependency (the `refresh` callback identity) changes. -/
def initialFetchEffect (inst : HookInst) : HookInst × Bool :=
  if !inst.hasFetched then ({ hasFetched := true }, true) else (inst, false)

/-- `n` consecutive executions of the initial-fetch effect on one instance;
second component counts how many of them triggered `refresh`. -/
def effectRuns : Nat → HookInst → HookInst × Nat
  | 0, inst => (inst, 0)
  | n + 1, inst =>
      let (inst1, t) := initialFetchEffect inst
      let (inst2, c) := effectRuns n inst1
      (inst2, (if t then 1 else 0) + c)

/-- Startup refreshes over an application session: each mount constructs a
fresh hook instance (so a fresh `useRef(false)` latch) and runs the
initial-fetch effect some positive number of times; the list gives the
effect-run count of each mount in order. -/
def sessionStartupTriggers (mountEffectRunCounts : List Nat) : Nat :=
  (mountEffectRunCounts.map (fun n => (effectRuns n freshHookInst).2)).sum

/-- One render-time evaluation of the usage-cleared effect
(`src/src/hooks/useUsage.ts` lines 55-60).  React re-runs the effect body
only when its dependency list `[currentUsage, refresh]` changed since the
previous run; `refresh`'s identity is stable across these renders
(`useCallback` with unchanged deps), so the comparison reduces to
`currentUsage`.  `prev` is the previously-seen dependency value (`none`
when the effect has not run yet).  Returns the new previously-seen value
and whether the body invoked `refresh`
(`if (currentUsage === null && hasFetched.current) refresh()`). -/
def usageClearedEffectStep (hasFetched : Bool) (currentUsage : Option UsageData)
    (prev : Option (Option UsageData)) : Option (Option UsageData) × Bool :=
  if prev = some currentUsage then (prev, false)
  else (some currentUsage,
        if currentUsage = none && hasFetched then true else false)

/-- Number of `refresh` invocations the usage-cleared effect makes over a
sequence of renders whose `usage[provider]` values are `renders`, starting
from previously-seen dependency value `prev`. -/
def usageClearedTriggers (hasFetched : Bool) :
    List (Option UsageData) → Option (Option UsageData) → Nat
  | [], _ => 0
  | u :: rest, prev =>
      let (prev1, t) := usageClearedEffectStep hasFetched u prev
      (if t then 1 else 0) + usageClearedTriggers hasFetched rest prev1

/-- Modelled from the spec: the credential-change signal handler (§4.2,
"clears `usage` to absent for the affected provider"); the Settings-to-store
wiring that performs the clear is not among the reviewed sources, only the
effect in `useUsage.ts` that reacts to it. -/
def credentialClear (s : Store) (p : ProviderId) : Store :=
  setUsage s p none

/-- Banner categories, from `src/src/components/UsageCard.tsx` line 40
(`type BannerType = "expired" | "blocked" | "rate_limited" |
"no_credentials" | null`); absence is `Option.none`. -/
inductive BannerType where
  | expired
  | blocked
  | rate_limited
  | no_credentials
deriving DecidableEq, Repr

/-- Decidable model of JavaScript `hay.includes(pat)` on the character
list level: some contiguous run of `hay` equals `pat`. -/
def charsContain (pat : List Char) : List Char → Bool
  | [] => pat.isEmpty
  | c :: t => pat.isPrefixOf (c :: t) || charsContain pat t

/-- JavaScript `hay.includes(pat)` for strings. -/
def strIncludes (hay pat : String) : Bool :=
  charsContain pat.data hay.data

/-- JavaScript `toLowerCase()`; every trigger substring in the classifier is
ASCII, where `Char.toLower` agrees with the JavaScript conversion. -/
def lowerStr (s : String) : String :=
  ⟨s.data.map Char.toLower⟩

/-- First condition of `detectBannerType`
(`src/src/components/UsageCard.tsx` lines 47-52), on the lowercased error. -/
def matchesExpired (lowerError : String) : Bool :=
  strIncludes lowerError "session expired" || strIncludes lowerError "sessionexpired"
    || strIncludes lowerError "401" || strIncludes lowerError "unauthorized"

/-- Second condition of `detectBannerType` (lines 56-60). -/
def matchesBlocked (lowerError : String) : Bool :=
  strIncludes lowerError "cloudflare" || strIncludes lowerError "blocked"
    || strIncludes lowerError "403"

/-- Third condition of `detectBannerType` (line 64). -/
def matchesRateLimited (lowerError : String) : Bool :=
  strIncludes lowerError "rate limit" || strIncludes lowerError "429"

/-- Fourth condition of `detectBannerType` (lines 68-72). -/
def matchesNoCredentials (lowerError : String) : Bool :=
  strIncludes lowerError "no credentials" || strIncludes lowerError "missing credentials"

/-- `detectBannerType` (`src/src/components/UsageCard.tsx` lines 42-76).
The guard `if (!error) return null` is JavaScript falsiness: it fires on
`null` and on the empty string alike. -/
def detectBannerType (error : Option String) : Option BannerType :=
  match error with
  | none => none
  | some e =>
      if e = "" then none
      else
        let lowerError := lowerStr e
        if matchesExpired lowerError then some .expired
        else if matchesBlocked lowerError then some .blocked
        else if matchesRateLimited lowerError then some .rate_limited
        else if matchesNoCredentials lowerError then some .no_credentials
        else none

/-- Presentation state owned by `SessionBanner`
(`src/src/components/UsageCard.tsx` lines 125-126): the `dismissed` and
`lastError` `useState` cells, both starting at `false` / `null`. -/
structure BannerState where
  dismissed : Bool
  lastError : Option String
deriving DecidableEq, Repr

/-- Initial `SessionBanner` state (`useState(false)`, `useState(null)`). -/
def bannerInit : BannerState := { dismissed := false, lastError := none }

/-- The reset effect of `SessionBanner`
(`src/src/components/UsageCard.tsx` lines 129-134): when the raw error prop
differs from the remembered one, clear `dismissed` and remember the new
error.  Runs on every render; when `error === lastError` it is a no-op. -/
def bannerOnRender (error : Option String) (st : BannerState) : BannerState :=
  if error ≠ st.lastError then { dismissed := false, lastError := error } else st

/-- The dismiss button handler (`src/src/components/UsageCard.tsx`
line 198): `setDismissed(true)`. -/
def bannerDismiss (st : BannerState) : BannerState :=
  { st with dismissed := true }

/-- Update-lifecycle states, from `src/src/components/About.tsx` line 14. -/
inductive UpdateState where
  | idle
  | checking
  | available
  | downloading
  | ready
  | up_to_date
  | error
deriving DecidableEq, Repr

/-- Download progress callback payload
(`@tauri-apps/plugin-updater` events consumed at `About.tsx` lines 60-73):
`Started{contentLength?}`, `Progress{chunkLength}`, `Finished`.
Byte counts are `Nat`. -/
inductive DownloadEvent where
  | started (contentLength : Option Nat)
  | progress (chunkLength : Nat)
  | finished
deriving DecidableEq, Repr

/-- State touched by `downloadAndInstall` (`About.tsx`): the React state
cells `updateState`, `downloadProgress`, `error`, the local accumulators
`totalSize`, `downloaded` (lines 56-57), and the trace of `downloadProgress`
values an observer of the rendered component sees. -/
structure UpdateCtl where
  updateState : UpdateState
  downloadProgress : Nat
  error : Option String
  totalSize : Nat
  downloaded : Nat
  reports : List Nat
deriving DecidableEq, Repr

/-- React `setDownloadProgress`: when the new value equals the current one
React bails out (`Object.is`) and no re-render is observed; otherwise the
value is stored and observed. -/
def setProgress (c : UpdateCtl) (v : Nat) : UpdateCtl :=
  if v = c.downloadProgress then c
  else { c with downloadProgress := v, reports := c.reports ++ [v] }

/-- `Math.round((downloaded / totalSize) * 100)` (`About.tsx` line 67) as a
rational rounding `round(num / den)`, ties away from the floor as
JavaScript's `Math.round` rounds half up; exact for the byte counts the
verified traces use. -/
def natRoundDiv (num den : Nat) : Nat :=
  (2 * num + den) / (2 * den)

/-- The progress callback body (`About.tsx` lines 60-73):
`Started` captures `contentLength ?? 0` into `totalSize`; `Progress` adds
the chunk to `downloaded` and, only when `totalSize > 0`, reports the
rounded percentage; `Finished` reports `100` explicitly. -/
def dlOnEvent (c : UpdateCtl) : DownloadEvent → UpdateCtl
  | .started cl => { c with totalSize := cl.getD 0 }
  | .progress n =>
      let c1 := { c with downloaded := c.downloaded + n }
      if c1.totalSize > 0 then
        setProgress c1 (natRoundDiv (c1.downloaded * 100) c1.totalSize)
      else c1
  | .finished => setProgress c 100

/-- `downloadAndInstall` (`About.tsx` lines 49-82) run against a download
whose callback receives `events` in order and which then either completes
(`failure = none`: the `await` returns and line 76 sets `ready`) or rejects
(`failure = some msg`: the `catch` of lines 77-81 stores the message and
sets `error`).  Entry resets `updateState` to `downloading`,
`downloadProgress` to `0`, and the local accumulators to `0`
(lines 52-57). -/
def downloadAndInstall (events : List DownloadEvent) (failure : Option String)
    (c : UpdateCtl) : UpdateCtl :=
  let c1 := setProgress { c with updateState := .downloading } 0
  let c2 := { c1 with totalSize := 0, downloaded := 0 }
  let c3 := events.foldl dlOnEvent c2
  match failure with
  | none => { c3 with updateState := .ready }
  | some msg => { c3 with error := some msg, updateState := .error }

/-- The controller as `downloadAndInstall` finds it after a completed check
that found an update (`checkForUpdates`, lines 34-38: state `available`,
no error, progress still at its initial `0`). -/
def ctlAvailable : UpdateCtl :=
  { updateState := .available, downloadProgress := 0, error := none,
    totalSize := 0, downloaded := 0, reports := [] }

/-- Concrete inputs used by the witnesses. -/
def emptyEntry : StoreEntry :=
  { usage := none, loading := false, error := none, lastRefresh := none }

/-- A store with no usage, errors, or timestamps recorded. -/
def emptyStore : Store :=
  { claude := emptyEntry, codex := emptyEntry }

/-- A sample successful fetch payload. -/
def sampleData : UsageData :=
  { provider := .claude, timestamp := "2026-01-01T00:00:00Z", limits := [] }

/-- A backend with no stored credentials: `has_credentials` fulfills with
`false`. -/
def gwNoCreds : Gateway :=
  { hasCredentials := fun _ => .ok false, fetchUsage := fun _ => .error "unreachable",
    now := 0 }

/-- A backend whose credential check passes and whose fetch succeeds. -/
def gwFetchOk : Gateway :=
  { hasCredentials := fun _ => .ok true, fetchUsage := fun _ => .ok sampleData,
    now := 1 }

/-- A backend whose credential check passes and whose fetch rejects. -/
def gwFetchFail : Gateway :=
  { hasCredentials := fun _ => .ok true, fetchUsage := fun _ => .error "network error",
    now := 2 }

theorem Store.get_set_same (s : Store) (p : ProviderId) (e : StoreEntry) :
    (s.set p e).get p = e := by
  cases p <;> rfl

/-- C1: the two back-to-back `refresh(claude)` invocations of the failing
input — both credential checks pass before either fetch resolves, attempt
A's fetch fulfills with `sampleData`, attempt B's rejects with
`"network error"` — issue two concurrent `fetchUsage` network calls, and
leave a final store entry whose `usage` and `lastRefresh` come from attempt
A while its `error` comes from attempt B: a mix of fields of the two
attempts, refuting both the at-most-one-concurrent-fetch guarantee and the
no-mixed-fields guarantee. -/
theorem refresh_singleFlight_violated :
    (twoRefreshBackToBack gwFetchOk gwFetchFail .claude emptyStore).2.count
        (.fetchUsageCall .claude) = 2 ∧
    ((twoRefreshBackToBack gwFetchOk gwFetchFail .claude emptyStore).1.get .claude).usage
        = some sampleData ∧
    ((twoRefreshBackToBack gwFetchOk gwFetchFail .claude emptyStore).1.get .claude).lastRefresh
        = some gwFetchOk.now ∧
    ((twoRefreshBackToBack gwFetchOk gwFetchFail .claude emptyStore).1.get .claude).error
        = some "network error" := by
  decide

/-- C2: when the credential check fulfills with `false`, `refresh` issues
no `fetchUsage` call (the only network call is the credential check itself)
and terminates with `loading = false` and the non-null fast-fail error. -/
theorem refresh_credentialGate (g : Gateway) (p : ProviderId) (s : Store)
    (h : g.hasCredentials p = .ok false) :
    (refresh g p s).2 = [.hasCredentialsCall p] ∧
    ((refresh g p s).1.get p).loading = false ∧
    ((refresh g p s).1.get p).error = some noCredentialsError := by
  simp [refresh, h, refreshStart, refreshOnCreds, setLoading, setError,
    Store.get_set_same]

/-- Witness for C2 at the concrete credential-less backend. -/
theorem refresh_credentialGate_witness :
    gwNoCreds.hasCredentials .claude = .ok false ∧
    ((refresh gwNoCreds .claude emptyStore).2 = [.hasCredentialsCall .claude] ∧
     ((refresh gwNoCreds .claude emptyStore).1.get .claude).loading = false ∧
     ((refresh gwNoCreds .claude emptyStore).1.get .claude).error = some noCredentialsError) :=
  ⟨rfl, refresh_credentialGate gwNoCreds .claude emptyStore rfl⟩

/-- C3: every branch of a single `refresh(p)` run — credential check
rejected, credentials absent, fetch fulfilled, fetch rejected — leaves
`loading(p) = false`: the `finally` cleanup runs on every path. -/
theorem refresh_clears_loading (g : Gateway) (p : ProviderId) (s : Store) :
    ((refresh g p s).1.get p).loading = false := by
  rcases hc : g.hasCredentials p with msg | b
  · simp [refresh, hc, refreshStart, refreshOnCreds, refreshOnFetch,
      setLoading, setError, setUsage, setLastRefresh, Store.get_set_same]
  · cases b
    · simp [refresh, hc, refreshStart, refreshOnCreds, refreshOnFetch,
        setLoading, setError, setUsage, setLastRefresh, Store.get_set_same]
    · rcases hf : g.fetchUsage p with m | d <;>
        simp [refresh, hc, hf, refreshStart, refreshOnCreds, refreshOnFetch,
          setLoading, setError, setUsage, setLastRefresh, Store.get_set_same]

/-- C4: when the credential check passes but the fetch rejects, `refresh`
stores the failure message in `error(p)` and leaves both `usage(p)` and
`lastRefresh(p)` exactly as they were: stale data survives the failure and
the timestamp is only written on the success branch. -/
theorem refresh_failure_retains_stale_usage (g : Gateway) (p : ProviderId)
    (s : Store) (d : UsageData) (msg : String)
    (hu : (s.get p).usage = some d)
    (hc : g.hasCredentials p = .ok true) (hf : g.fetchUsage p = .error msg) :
    ((refresh g p s).1.get p).error = some msg ∧
    ((refresh g p s).1.get p).usage = some d ∧
    ((refresh g p s).1.get p).lastRefresh = (s.get p).lastRefresh := by
  refine ⟨?_, ?_, ?_⟩ <;>
    simp [refresh, hc, hf, refreshStart, refreshOnCreds, refreshOnFetch,
      setLoading, setError, Store.get_set_same, hu]

/-- Witness for C4: a store already holding `sampleData` for claude, a
backend whose fetch rejects with `"network error"`. -/
theorem refresh_failure_retains_stale_usage_witness :
    ((setUsage emptyStore .claude (some sampleData)).get .claude).usage = some sampleData ∧
    gwFetchFail.hasCredentials .claude = .ok true ∧
    gwFetchFail.fetchUsage .claude = .error "network error" ∧
    (((refresh gwFetchFail .claude (setUsage emptyStore .claude (some sampleData))).1.get
        .claude).error = some "network error" ∧
     ((refresh gwFetchFail .claude (setUsage emptyStore .claude (some sampleData))).1.get
        .claude).usage = some sampleData ∧
     ((refresh gwFetchFail .claude (setUsage emptyStore .claude (some sampleData))).1.get
        .claude).lastRefresh =
       ((setUsage emptyStore .claude (some sampleData)).get .claude).lastRefresh) :=
  ⟨by decide, rfl, rfl,
   refresh_failure_retains_stale_usage gwFetchFail .claude
     (setUsage emptyStore .claude (some sampleData)) sampleData "network error"
     (by decide) rfl rfl⟩

/-- C5: the classifier maps `null` to no banner, maps
`"Session Expired: 401"` to `expired`, is a function (classifying the same
string twice yields the same category), and evaluates its rule table in
priority order — `expired` first, then `blocked`, then `rate_limited`, then
`no_credentials`, the first matching category winning, and no banner when
no rule matches. -/
theorem detectBannerType_classification :
    detectBannerType none = none ∧
    detectBannerType (some "Session Expired: 401") = some .expired ∧
    (∀ e : Option String, detectBannerType e = detectBannerType e) ∧
    (∀ e : String, matchesExpired (lowerStr e) = true →
        detectBannerType (some e) = some .expired) ∧
    (∀ e : String, matchesExpired (lowerStr e) = false →
        matchesBlocked (lowerStr e) = true →
        detectBannerType (some e) = some .blocked) ∧
    (∀ e : String, matchesExpired (lowerStr e) = false →
        matchesBlocked (lowerStr e) = false →
        matchesRateLimited (lowerStr e) = true →
        detectBannerType (some e) = some .rate_limited) ∧
    (∀ e : String, matchesExpired (lowerStr e) = false →
        matchesBlocked (lowerStr e) = false →
        matchesRateLimited (lowerStr e) = false →
        matchesNoCredentials (lowerStr e) = true →
        detectBannerType (some e) = some .no_credentials) ∧
    (∀ e : String, matchesExpired (lowerStr e) = false →
        matchesBlocked (lowerStr e) = false →
        matchesRateLimited (lowerStr e) = false →
        matchesNoCredentials (lowerStr e) = false →
        detectBannerType (some e) = none) := by
  refine ⟨by decide, by decide, fun e => rfl, ?_, ?_, ?_, ?_, ?_⟩
  · intro e h1
    by_cases he : e = ""
    · exact absurd (he ▸ h1) (by decide)
    · simp [detectBannerType, he, h1]
  · intro e h1 h2
    by_cases he : e = ""
    · exact absurd (he ▸ h2) (by decide)
    · simp [detectBannerType, he, h1, h2]
  · intro e h1 h2 h3
    by_cases he : e = ""
    · exact absurd (he ▸ h3) (by decide)
    · simp [detectBannerType, he, h1, h2, h3]
  · intro e h1 h2 h3 h4
    by_cases he : e = ""
    · exact absurd (he ▸ h4) (by decide)
    · simp [detectBannerType, he, h1, h2, h3, h4]
  · intro e h1 h2 h3 h4
    by_cases he : e = ""
    · subst he; decide
    · simp [detectBannerType, he, h1, h2, h3, h4]

/-- Witness for C5 at `"401 blocked"`, a string matching both an `expired`
and a `blocked` trigger substring: priority gives `expired`. -/
theorem detectBannerType_classification_witness :
    matchesExpired (lowerStr "401 blocked") = true ∧
    detectBannerType (some "401 blocked") = some .expired :=
  ⟨by decide, detectBannerType_classification.2.2.2.1 "401 blocked" (by decide)⟩

/-- C6: the reset effect clears `dismissed` and records the new raw error
whenever the incoming error differs from the remembered one — the
comparison is on the raw strings, not the derived categories — and in the
concrete scenario a dismissed `rate_limited` banner for
`"429 too many requests"` followed by the new error `"403 forbidden"`
(category `blocked`) is shown undismissed. -/
theorem sessionBanner_dismissed_resets_on_error_change :
    (∀ (st : BannerState) (e : Option String), e ≠ st.lastError →
        (bannerOnRender e st).dismissed = false ∧
        (bannerOnRender e st).lastError = e) ∧
    (bannerOnRender (some "403 forbidden")
        (bannerDismiss (bannerOnRender (some "429 too many requests") bannerInit))).dismissed
      = false ∧
    detectBannerType (some "429 too many requests") = some .rate_limited ∧
    detectBannerType (some "403 forbidden") = some .blocked := by
  refine ⟨fun st e h => ?_, by decide, by decide, by decide⟩
  simp [bannerOnRender, h]

/-- Witness for C6: two distinct raw errors that map to the same category
still reset `dismissed` (the comparison is on the raw string). -/
theorem sessionBanner_dismissed_resets_witness :
    some "429 again" ≠ (BannerState.mk true (some "429 too many requests")).lastError ∧
    ((bannerOnRender (some "429 again")
        (BannerState.mk true (some "429 too many requests"))).dismissed = false ∧
     (bannerOnRender (some "429 again")
        (BannerState.mk true (some "429 too many requests"))).lastError = some "429 again") :=
  ⟨by decide,
   sessionBanner_dismissed_resets_on_error_change.1
     (BannerState.mk true (some "429 too many requests")) (some "429 again") (by decide)⟩

theorem effectRuns_fetched (n : Nat) :
    effectRuns n { hasFetched := true } = ({ hasFetched := true }, 0) := by
  induction n with
  | zero => rfl
  | succ n ih => simp [effectRuns, initialFetchEffect, ih]

/-- C7 counterexample: a session with two mounts of the consuming component
fires the startup refresh twice — the second mount's fresh `useRef(false)`
latch re-triggers it — whereas a single-mount session fires it once.  The
claimed once-per-application-session latch therefore fails at the second
mount. -/
theorem startup_latch_second_mount_retriggers :
    sessionStartupTriggers [1] = 1 ∧ sessionStartupTriggers [1, 1] = 2 := by
  decide

/-- C7 amended: the latch is per mounted hook instance, not per application
session — within one mount the startup refresh fires exactly once no matter
how many times the mount effect re-runs, and each further mount fires it
exactly once more. -/
theorem startup_latch_once_per_instance :
    (∀ n : Nat, sessionStartupTriggers [n + 1] = 1) ∧
    (∀ n m : Nat, sessionStartupTriggers [n + 1, m + 1] = 2) := by
  constructor
  · intro n
    simp [sessionStartupTriggers, effectRuns, initialFetchEffect, freshHookInst,
      effectRuns_fetched]
  · intro n m
    simp [sessionStartupTriggers, effectRuns, initialFetchEffect, freshHookInst,
      effectRuns_fetched]

theorem usageClearedTriggers_stable (h : Bool) (k : Nat)
    (tail : List (Option UsageData)) :
    usageClearedTriggers h (List.replicate k none ++ tail) (some none) =
      usageClearedTriggers h tail (some none) := by
  induction k with
  | zero => rfl
  | succ k ih => simpa [List.replicate_succ, usageClearedTriggers,
      usageClearedEffectStep] using ih

/-- C8: the credential-clear operation leaves `usage(p) = absent`, and on an
already-fetched session (`hasFetched = true`) the usage-cleared effect then
invokes `refresh` exactly once: once at the render where `usage` transitions
to absent, and not again over the later renders in which `usage` stays
absent (loading/error writes during the refresh), nor at a final render
where a successful fetch makes `usage` present again. -/
theorem credentialClear_triggers_one_refresh :
    (∀ (s : Store) (p : ProviderId), ((credentialClear s p).get p).usage = none) ∧
    (∀ (d : UsageData) (k : Nat),
        usageClearedTriggers true (List.replicate (k + 1) none) (some (some d)) = 1) ∧
    (∀ (d d' : UsageData) (k : Nat),
        usageClearedTriggers true (List.replicate (k + 1) none ++ [some d'])
          (some (some d)) = 1) := by
  refine ⟨fun s p => ?_, fun d k => ?_, fun d d' k => ?_⟩
  · simp [credentialClear, setUsage, Store.get_set_same]
  · have h0 := usageClearedTriggers_stable true k []
    simp only [List.append_nil] at h0
    simp [List.replicate_succ, usageClearedTriggers, usageClearedEffectStep, h0]
  · have h0 := usageClearedTriggers_stable true k [some d']
    simp [List.replicate_succ, usageClearedTriggers, usageClearedEffectStep, h0]

theorem dlFold_zeroTotal (chunks : List Nat) (c : UpdateCtl) (h : c.totalSize = 0) :
    (chunks.map DownloadEvent.progress).foldl dlOnEvent c =
      { c with downloaded := c.downloaded + chunks.sum } := by
  induction chunks generalizing c with
  | nil => simp
  | cons n t ih =>
      simp [dlOnEvent, h, ih, Nat.add_assoc]

/-- C9: for the stream `Started{contentLength:200}`, four
`Progress{chunkLength:50}` events, then `Finished`, the observed progress
values are `25, 50, 75, 100` in that order and the controller ends in state
`ready`; each progress event with a positive captured total sets the
progress to the running total of chunk lengths divided (rounded) by that
total; and when the `Started` event carries an unknown or zero total, no
progress value is observed until completion, which reports `100`
explicitly. -/
theorem download_progress_stream :
    ((downloadAndInstall
        [.started (some 200), .progress 50, .progress 50, .progress 50, .progress 50,
         .finished] none ctlAvailable).reports = [25, 50, 75, 100] ∧
     (downloadAndInstall
        [.started (some 200), .progress 50, .progress 50, .progress 50, .progress 50,
         .finished] none ctlAvailable).updateState = .ready) ∧
    (∀ (c : UpdateCtl) (chunk : Nat), 0 < c.totalSize →
        (dlOnEvent c (.progress chunk)).downloadProgress =
          natRoundDiv ((c.downloaded + chunk) * 100) c.totalSize) ∧
    (∀ (cl : Option Nat) (chunks : List Nat), cl.getD 0 = 0 →
        (downloadAndInstall (.started cl :: chunks.map .progress) none
            ctlAvailable).reports = [] ∧
        (downloadAndInstall (.started cl :: (chunks.map .progress ++ [.finished])) none
            ctlAvailable).reports = [100] ∧
        (downloadAndInstall (.started cl :: (chunks.map .progress ++ [.finished])) none
            ctlAvailable).downloadProgress = 100 ∧
        (downloadAndInstall (.started cl :: (chunks.map .progress ++ [.finished])) none
            ctlAvailable).updateState = .ready) := by
  refine ⟨⟨by decide, by decide⟩, fun c chunk hpos => ?_, fun cl chunks hcl => ?_⟩
  · simp [dlOnEvent, hpos, setProgress]
    split
    · rename_i hv
      exact hv.symm
    · rfl
  · refine ⟨?_, ?_, ?_, ?_⟩ <;>
      simp [downloadAndInstall, dlOnEvent, setProgress, ctlAvailable, hcl,
        List.foldl_append, dlFold_zeroTotal]

/-- Witness for C9's hypotheses: a progress chunk arriving with a captured
total of 200 bytes and 50 bytes already downloaded, and a stream whose
`Started` event carries no content length. -/
theorem download_progress_stream_witness :
    (0 < (UpdateCtl.mk .downloading 25 none 200 50 [25]).totalSize ∧
     (dlOnEvent (UpdateCtl.mk .downloading 25 none 200 50 [25])
        (.progress 50)).downloadProgress = natRoundDiv ((50 + 50) * 100) 200) ∧
    ((Option.getD (α := Nat) none 0 = 0) ∧
     (downloadAndInstall (.started none :: ([50, 50].map .progress ++ [.finished])) none
        ctlAvailable).reports = [100]) :=
  ⟨⟨by decide,
    download_progress_stream.2.1 (UpdateCtl.mk .downloading 25 none 200 50 [25]) 50
      (by decide)⟩,
   ⟨by decide,
    (download_progress_stream.2.2 none [50, 50] (by decide)).2.1⟩⟩

/-- C10: whenever `refresh` takes the credential-absent fast-fail branch,
the exact error string it stores is classified as the `no_credentials`
banner category — it contains `"no credentials"` case-insensitively and
matches no higher-priority rule. -/
theorem noCredentials_error_classified (g : Gateway) (p : ProviderId) (s : Store)
    (h : g.hasCredentials p = .ok false) :
    detectBannerType (((refresh g p s).1.get p).error) = some .no_credentials ∧
    detectBannerType (some noCredentialsError) = some .no_credentials := by
  have h2 : ((refresh g p s).1.get p).error = some noCredentialsError := by
    simp [refresh, h, refreshStart, refreshOnCreds, setLoading, setError,
      Store.get_set_same]
  rw [h2]
  exact ⟨by decide, by decide⟩

/-- Witness for C10 at the concrete credential-less backend. -/
theorem noCredentials_error_classified_witness :
    gwNoCreds.hasCredentials .claude = .ok false ∧
    (detectBannerType (((refresh gwNoCreds .claude emptyStore).1.get .claude).error)
        = some .no_credentials ∧
     detectBannerType (some noCredentialsError) = some .no_credentials) :=
  ⟨rfl, noCredentials_error_classified gwNoCreds .claude emptyStore rfl⟩
